import Mathlib

/-!
Verification of the glasgow jtag-pdi applet (driver and sniffer gateware plus
the supporting Python software) against its natural-language specification.

The Python/nmigen sources are shallowly embedded as pure Lean functions:
machine integers become `Nat` with explicit masking where the hardware
truncates, hardware FSMs become explicit step functions on state records,
and the software decode helpers become ordinary functions.
-/

namespace JTAGPDI

/-- Bit slice `x[lo:hi]` in Python/nmigen notation: bits `lo` (inclusive)
up to `hi` (exclusive) of `x`. -/
def slice (x lo hi : Nat) : Nat :=
  (x >>> lo) &&& (2 ^ (hi - lo) - 1)

/-- Byte `j` of a natural number: bits `[8*j : 8*j+8]`.  Used to phrase the
byte-reversal property of `reverse_count`. -/
def byteAt (x j : Nat) : Nat :=
  (x >>> (8 * j)) % 2 ^ 8

/-- XOR-reduction of the low `n` bits of `x`, mirroring nmigen's
`Signal.xor()` on an `n`-bit signal. -/
def xorBits (x : Nat) : Nat → Bool
  | 0 => false
  | n + 1 => (xorBits x n).xor (x.testBit n)

/-- Encoding of one PDI data byte as a 9-bit unit, from
`interactive.py` `PDIController.elaborate` IDLE state:
`Cat(cmd, cmd.xor())` — 8 data bits then the XOR parity bit. -/
def encodePdi (b : Nat) : Nat :=
  (b &&& 0xFF) ||| ((if xorBits b 8 then 1 else 0) <<< 8)

/-- Parity acceptance test of a received 9-bit unit, from `sniffer.py`
`PDIDissector.elaborate`: `parityInOK.eq(pdiDataIn.xor() == 0)` —
the unit is valid iff the XOR of all 9 bits is 0. -/
def parityValid (u : Nat) : Bool :=
  xorBits u 9 == false

/-! ## Software PDI codec (`__init__.py`) -/

/-- Numeric values of `PDIOpcodes` from `__init__.py`. -/
def LDS : Nat := 0
def LD : Nat := 1
def STS : Nat := 2
def ST : Nat := 3
def LDCS : Nat := 4
def REPEAT : Nat := 5
def STCS : Nat := 6
def KEY : Nat := 7
def IDLE : Nat := 0xF

/-- Numeric values of `TAPInstruction` from `__init__.py`. -/
def idCodeInsn : Nat := 0x3
def pdiComInsn : Nat := 0x7
def bypassInsn : Nat := 0xF

/-- Command protocol header bytes from `__init__.py` (`Header`). -/
def headerIDCode : Nat := 0x10
def headerPDI : Nat := 0x11
def headerReset : Nat := 0x1E

/-- JTAGPDIApplet._handle_lds: returns (readCount, writeCount). -/
def handle_lds (sizeA sizeB _repCount : Nat) : Nat × Nat := (sizeB, sizeA)

/-- JTAGPDIApplet._handle_ld. -/
def handle_ld (_sizeA sizeB repCount : Nat) : Nat × Nat := (sizeB * (repCount + 1), 0)

/-- JTAGPDIApplet._handle_sts. -/
def handle_sts (sizeA sizeB _repCount : Nat) : Nat × Nat := (0, sizeA + sizeB)

/-- JTAGPDIApplet._handle_st. -/
def handle_st (_sizeA sizeB repCount : Nat) : Nat × Nat := (0, sizeB * (repCount + 1))

/-- JTAGPDIApplet._handle_ldcs. -/
def handle_ldcs (_sizeA _sizeB _repCount : Nat) : Nat × Nat := (1, 0)

/-- JTAGPDIApplet._handle_stcs. -/
def handle_stcs (_sizeA _sizeB _repCount : Nat) : Nat × Nat := (0, 1)

/-- JTAGPDIApplet._handle_repeat. -/
def handle_repeat (_sizeA sizeB _repCount : Nat) : Nat × Nat := (0, sizeB)

/-- JTAGPDIApplet._handle_key. -/
def handle_key (_sizeA _sizeB _repCount : Nat) : Nat × Nat := (0, 8)

/-- The `_pdi_handlers` dictionary built in `JTAGPDIApplet.__init__`:
a partial map from opcode value to handler (`none` models a missing key,
which in Python would raise `KeyError`). -/
def pdi_handlers (insn : Nat) : Option (Nat → Nat → Nat → Nat × Nat) :=
  if insn = LDS then some handle_lds
  else if insn = LD then some handle_ld
  else if insn = STS then some handle_sts
  else if insn = ST then some handle_st
  else if insn = LDCS then some handle_ldcs
  else if insn = STCS then some handle_stcs
  else if insn = REPEAT then some handle_repeat
  else if insn = KEY then some handle_key
  else none

/-- JTAGPDIApplet._decode_counts: given the opcode value, the low 4 bits of
the opcode byte and the current repeat count, produce (readCount, writeCount).
`none` models a `KeyError` on an opcode with no handler. -/
def decode_counts (insn args repCount : Nat) : Option (Nat × Nat) :=
  let sizeA := ((args &&& 0x0C) >>> 2) + 1
  let sizeB := (args &&& 0x03) + 1
  (pdi_handlers insn).map (fun h => h sizeA sizeB repCount)

/-- JTAGPDIApplet._reverse_count: byte-reverse `count` across `byteCount`
bytes. -/
def reverse_count (count byteCount : Nat) : Nat :=
  (List.range byteCount).foldl
    (fun result byte =>
      result ||| (((count >>> (8 * byte)) &&& 0xFF) <<< (8 * (byteCount - byte - 1)))) 0

/-- Accumulation of REPEAT payload bytes in `JTAGPDIApplet._write_pdi_vcd`:
`repCount <<= 8; repCount |= byte` per received byte. -/
def accumulate_repeat (bytes : List Nat) : Nat :=
  bytes.foldl (fun acc byte => (acc <<< 8) ||| byte) 0

/-- Final repeat count computed by the software decoder in `_write_pdi_vcd`:
the accumulated value byte-reversed across the number of bytes written
(`repCount = self._reverse_count(repCount, repBytes)`). -/
def software_repeat_count (bytes : List Nat) : Nat :=
  reverse_count (accumulate_repeat bytes) bytes.length

/-! ## Device-ID decoder (`meta.py`) -/

/-- The `to_int32_be` helper from `meta.py` (big-endian assembly of the first
four bytes of the input). -/
def to_int32_be (bytes : List Nat) : Nat :=
  ((bytes.getD 0 0) <<< 24) ||| ((bytes.getD 1 0) <<< 16) |||
  ((bytes.getD 2 0) <<< 8) ||| (bytes.getD 3 0)

/-- The `jedec_id` dictionary (`meta.py`). -/
def jedec_id (m : Nat) : Option String :=
  if m = 0x1f then some "Atmel" else none

/-- The `avr_idcode` dictionary (`meta.py`). -/
def avr_idcode (p : Nat) : Option String :=
  if p = 0x9642 then some "ATXMega64A3U"
  else if p = 0x9742 then some "ATXMega128A3U"
  else if p = 0x9744 then some "ATXMega192A3U"
  else if p = 0x9842 then some "ATXMega256A3U"
  else none

/-- Lowercase hexadecimal digits of `n`, most significant first, as Python
produces for a positive number (a single digit for `n = 0`). -/
def hexStr (n : Nat) : String :=
  String.mk (Nat.toDigits 16 n)

/-- Python `f-string` formatting with the `#x` format specification:
a `0x` prefix followed by the minimal lowercase hex digits. -/
def pyHexTagged (n : Nat) : String :=
  "0x" ++ hexStr n

/-- Python `f-string` formatting with the `#010x` format specification:
total width 10 with the `0x` prefix and zero-padding (8 hex digits for
any 32-bit value). -/
def pyHexTagged010 (n : Nat) : String :=
  let digits := Nat.toDigits 16 n
  let pad := if digits.length + 2 < 10 then List.replicate (10 - 2 - digits.length) '0' else []
  "0x" ++ String.mk (pad ++ digits)

/-- The `decode_device_id_code` function from `meta.py`, translated
line by line. -/
def decode_device_id_code (bytes : List Nat) : String × String × Nat × String :=
  let idCode := to_int32_be bytes
  let version := (idCode >>> 28) &&& 0xF
  let part := (idCode >>> 12) &&& 0xFFFF
  let partName := (avr_idcode part).getD (pyHexTagged part)
  let manufacturer := (jedec_id ((idCode >>> 1) &&& 0x7FF)).getD "INVALID"
  let id_hex := pyHexTagged010 idCode
  (id_hex, manufacturer, version, partName)

/-- Modelled from the spec: the decoder as described in §4.4 and claim C9,
whose part field is bits `[23:12]` of the 32-bit value (the code instead
uses bits `[27:12]`).  All other fields follow `meta.py`. -/
def decode_device_id_code_claim (bytes : List Nat) : String × String × Nat × String :=
  let idCode := to_int32_be bytes
  let version := (idCode >>> 28) &&& 0xF
  let part := slice idCode 12 24
  let partName := (avr_idcode part).getD (pyHexTagged part)
  let manufacturer := (jedec_id ((idCode >>> 1) &&& 0x7FF)).getD "INVALID"
  let id_hex := pyHexTagged010 idCode
  (id_hex, manufacturer, version, partName)

/-! ## Observer TAP state machine (`sniffer.py`, `JTAGTAP.elaborate`) -/

/-- The sixteen IEEE-1149.1 TAP states, named as in the `sniffer.py` FSM. -/
inductive TapState where
  | RESET | TAPIDLE
  | SELECT_DR | CAPTURE_DR | SHIFT_DR | EXIT1_DR | PAUSE_DR | EXIT2_DR | UPDATE_DR
  | SELECT_IR | CAPTURE_IR | SHIFT_IR | EXIT1_IR | PAUSE_IR | EXIT2_IR | UPDATE_IR
  deriving DecidableEq, Repr

open TapState

/-- Next-state function of the observer TAP FSM in `sniffer.py`
(`JTAGTAP.elaborate`, the `m.next` structure of each state), as a pure
function of the current state and the TMS decision bit. -/
def tapStep (s : TapState) (tms : Bool) : TapState :=
  match s with
  | RESET => if tms then RESET else TAPIDLE
  | TAPIDLE => if tms then SELECT_DR else TAPIDLE
  | SELECT_DR => if tms then SELECT_IR else CAPTURE_DR
  | CAPTURE_DR => if tms then EXIT1_DR else SHIFT_DR
  | SHIFT_DR => if tms then EXIT1_DR else SHIFT_DR
  | EXIT1_DR => if tms then UPDATE_DR else PAUSE_DR
  | PAUSE_DR => if tms then EXIT2_DR else PAUSE_DR
  | EXIT2_DR => if tms then UPDATE_DR else SHIFT_DR
  | UPDATE_DR => if tms then SELECT_DR else TAPIDLE
  | SELECT_IR => if tms then RESET else CAPTURE_IR
  | CAPTURE_IR => if tms then EXIT1_IR else SHIFT_IR
  | SHIFT_IR => if tms then EXIT1_IR else SHIFT_IR
  | EXIT1_IR => if tms then UPDATE_IR else PAUSE_IR
  | PAUSE_IR => if tms then EXIT2_IR else PAUSE_IR
  | EXIT2_IR => if tms then UPDATE_IR else SHIFT_IR
  | UPDATE_IR => if tms then SELECT_DR else TAPIDLE

/-- Modelled from the spec: the IEEE-1149.1 transition table as written out
in §4.1 of the specification, used as the comparison point for `tapStep`. -/
def tapStepSpec (s : TapState) (tms : Bool) : TapState :=
  match s, tms with
  | RESET, false => TAPIDLE
  | RESET, true => RESET
  | TAPIDLE, true => SELECT_DR
  | TAPIDLE, false => TAPIDLE
  | SELECT_DR, true => SELECT_IR
  | SELECT_DR, false => CAPTURE_DR
  | CAPTURE_DR, true => EXIT1_DR
  | CAPTURE_DR, false => SHIFT_DR
  | SHIFT_DR, true => EXIT1_DR
  | SHIFT_DR, false => SHIFT_DR
  | EXIT1_DR, true => UPDATE_DR
  | EXIT1_DR, false => PAUSE_DR
  | PAUSE_DR, true => EXIT2_DR
  | PAUSE_DR, false => PAUSE_DR
  | EXIT2_DR, true => UPDATE_DR
  | EXIT2_DR, false => SHIFT_DR
  | UPDATE_DR, true => SELECT_DR
  | UPDATE_DR, false => TAPIDLE
  | SELECT_IR, true => RESET
  | SELECT_IR, false => CAPTURE_IR
  | CAPTURE_IR, true => EXIT1_IR
  | CAPTURE_IR, false => SHIFT_IR
  | SHIFT_IR, true => EXIT1_IR
  | SHIFT_IR, false => SHIFT_IR
  | EXIT1_IR, true => UPDATE_IR
  | EXIT1_IR, false => PAUSE_IR
  | PAUSE_IR, true => EXIT2_IR
  | PAUSE_IR, false => PAUSE_IR
  | EXIT2_IR, true => UPDATE_IR
  | EXIT2_IR, false => SHIFT_IR
  | UPDATE_IR, true => SELECT_DR
  | UPDATE_IR, false => TAPIDLE

/-- Trace of states visited by the observer TAP after each decision bit. -/
def tapTrace (s : TapState) : List Bool → List TapState
  | [] => []
  | b :: bs =>
    let s1 := tapStep s b
    s1 :: tapTrace s1 bs

/-! ## Insn FSM decode tables (both gateware variants)

The dissector (`sniffer.py` lines 286-355) and the controller
(`interactive.py` lines 333-402) each contain an insn FSM whose DECODE
state dispatches on the 3-bit opcode and whose per-opcode state loads the
`writeCount` / `readCount` registers and conditionally decrements
`repCount`.  Each is translated separately below so that their claimed
equality is a theorem, not a modelling artifact. -/

/-- One opcode decode of the dissector insn FSM (`sniffer.py`): the
`(writeCount, readCount, repCount)` register values produced by DECODE
dispatch plus the selected opcode state.  `none` when the opcode value has
no case in the DECODE switch (the FSM would remain in DECODE forever). -/
def dissector_insn_decode (op sizeA sizeB repCount : Nat) (newCommand : Bool) :
    Option (Nat × Nat × Nat) :=
  if op = 0 then some (sizeA, sizeB, repCount)
  else if op = 1 then
    some (0, sizeB, if repCount ≠ 0 ∧ ¬newCommand then repCount - 1 else repCount)
  else if op = 2 then some (sizeA + sizeB, 0, repCount)
  else if op = 3 then
    some (sizeB, 0, if repCount ≠ 0 ∧ ¬newCommand then repCount - 1 else repCount)
  else if op = 4 then some (0, 1, repCount)
  else if op = 6 then some (1, 0, repCount)
  else if op = 5 then some (sizeB, 0, repCount)
  else if op = 7 then some (8, 0, repCount)
  else none

/-- One opcode decode of the controller insn FSM (`interactive.py`), the
command-originating twin of `dissector_insn_decode`. -/
def controller_insn_decode (op sizeA sizeB repCount : Nat) (newCommand : Bool) :
    Option (Nat × Nat × Nat) :=
  if op = 0 then some (sizeA, sizeB, repCount)
  else if op = 1 then
    some (0, sizeB, if repCount ≠ 0 ∧ ¬newCommand then repCount - 1 else repCount)
  else if op = 2 then some (sizeA + sizeB, 0, repCount)
  else if op = 3 then
    some (sizeB, 0, if repCount ≠ 0 ∧ ¬newCommand then repCount - 1 else repCount)
  else if op = 4 then some (0, 1, repCount)
  else if op = 6 then some (1, 0, repCount)
  else if op = 5 then some (sizeB, 0, repCount)
  else if op = 7 then some (8, 0, repCount)
  else none

/-- The UPDATE-REPEAT state of the dissector insn FSM (`sniffer.py` lines
362-373): the value loaded into the 32-bit `repCount` register, switched on
the low two bits of the opcode args.  In the size-4 case the source
concatenates `Cat(repeatData[16:32], repeatData[16:24], repeatData[8:16],
repeatData[0:8])` — a 40-bit value truncated on assignment. -/
def dissector_update_repeat (args repeatData : Nat) : Nat :=
  (match args &&& 0x3 with
   | 0 => slice repeatData 0 8
   | 1 => slice repeatData 8 16 ||| (slice repeatData 0 8 <<< 8)
   | 2 => slice repeatData 16 24 ||| (slice repeatData 8 16 <<< 8) |||
          (slice repeatData 0 8 <<< 16)
   | _ => slice repeatData 16 32 ||| (slice repeatData 16 24 <<< 16) |||
          (slice repeatData 8 16 <<< 24) ||| (slice repeatData 0 8 <<< 32)) % 2 ^ 32

/-- The UPDATE-REPEAT state of the controller insn FSM (`interactive.py`
lines 409-420), switched on `cmd[0:2]`; textually the same computation as
the dissector variant. -/
def controller_update_repeat (cmdLow2 repeatData : Nat) : Nat :=
  (match cmdLow2 &&& 0x3 with
   | 0 => slice repeatData 0 8
   | 1 => slice repeatData 8 16 ||| (slice repeatData 0 8 <<< 8)
   | 2 => slice repeatData 16 24 ||| (slice repeatData 8 16 <<< 8) |||
          (slice repeatData 0 8 <<< 16)
   | _ => slice repeatData 16 32 ||| (slice repeatData 16 24 <<< 16) |||
          (slice repeatData 8 16 <<< 24) ||| (slice repeatData 0 8 <<< 32)) % 2 ^ 32

/-- CAPTURE-REPEAT accumulation step, shared text in both variants:
`repeatData.eq(Cat(pdiDataIn[0:8], repeatData[0:24]))`. -/
def capture_repeat_step (repeatData dataIn : Nat) : Nat :=
  slice dataIn 0 8 ||| (slice repeatData 0 24 <<< 8)

/-- Repeat count produced by the gateware for a full REPEAT payload:
fold the CAPTURE-REPEAT step over the payload bytes, then apply
UPDATE-REPEAT with the opcode's low args bits (`bytes.length - 1` for a
size-N payload). -/
def gateware_repeat_count (args : Nat) (bytes : List Nat) : Nat :=
  dissector_update_repeat args (bytes.foldl capture_repeat_step 0)

/-! ## Observer PDI dissector cycle model (`sniffer.py`, `PDIDissector`) -/

/-- States of the dissector byte FSM (`pdiFSM`). -/
inductive DisPdiState where
  | RESET | DISIDLE | CHECK_PARITY | HANDLE_WRITE | HANDLE_READ | SEND_DATA | PARITY_ERROR
  deriving DecidableEq, Repr

/-- States of the insn FSM (identical state sets in both gateware
variants). -/
inductive InsnState where
  | INSNIDLE | DECODE | SLDS | SLD | SSTS | SST | SLDCS | SSTCS | SREPEAT | SKEY
  | CAPTURE_REPEAT | UPDATE_REPEAT
  deriving DecidableEq, Repr

/-- Registers of the `PDIDissector` module (all `m.d.sync` targets plus
the two FSM state registers). -/
structure DisState where
  pdiState : DisPdiState
  insnState : InsnState
  data : Nat
  opcode : Nat
  args : Nat
  readCount : Nat
  writeCount : Nat
  repCount : Nat
  repeatData : Nat
  newCommand : Bool
  updateCountsNext : Bool
  deriving DecidableEq, Repr

/-- Per-cycle inputs of the dissector: the strobe generated from the TAP
`pdiReady` edge and the synchronized 9-bit data units. -/
structure DisInput where
  pdiStrobe : Bool
  pdiDataIn : Nat
  pdiDataOut : Nat
  deriving DecidableEq, Repr

/-- Combinational outputs of the dissector in one cycle. -/
structure DisOutput where
  sendHeader : Bool
  ready : Bool
  error : Bool
  deriving DecidableEq, Repr

/-- The `insnFSM` half of one `PDIDissector` cycle (`sniffer.py` lines
282-373): conditions and decode inputs are read from the pre-edge
registers `s`, and the register writes are applied on top of `s1`, the
state already updated by the `pdiFSM` half (the insn FSM is emitted later
in the module, so its writes win, as in nmigen). -/
def dissectorInsnApply (s s1 : DisState) (dataIn : Nat)
    (updateCounts updateRepeat : Bool) : DisState :=
  let sizeA := slice s.args 2 4 + 1
  let sizeB := slice s.args 0 2 + 1
  match s.insnState with
  | InsnState.INSNIDLE =>
    if updateCounts then { s1 with insnState := InsnState.DECODE } else s1
  | InsnState.DECODE =>
    if s.opcode = 0 then { s1 with insnState := InsnState.SLDS }
    else if s.opcode = 1 then { s1 with insnState := InsnState.SLD }
    else if s.opcode = 2 then { s1 with insnState := InsnState.SSTS }
    else if s.opcode = 3 then { s1 with insnState := InsnState.SST }
    else if s.opcode = 4 then { s1 with insnState := InsnState.SLDCS }
    else if s.opcode = 6 then { s1 with insnState := InsnState.SSTCS }
    else if s.opcode = 5 then { s1 with insnState := InsnState.SREPEAT }
    else if s.opcode = 7 then { s1 with insnState := InsnState.SKEY }
    else s1
  | InsnState.SLDS =>
    { s1 with writeCount := sizeA, readCount := sizeB, insnState := InsnState.INSNIDLE }
  | InsnState.SLD =>
    { s1 with writeCount := 0, readCount := sizeB,
              repCount := if s.repCount != 0 && !s.newCommand then s.repCount - 1
                          else s.repCount,
              insnState := InsnState.INSNIDLE }
  | InsnState.SSTS =>
    { s1 with writeCount := sizeA + sizeB, readCount := 0, insnState := InsnState.INSNIDLE }
  | InsnState.SST =>
    { s1 with writeCount := sizeB, readCount := 0,
              repCount := if s.repCount != 0 && !s.newCommand then s.repCount - 1
                          else s.repCount,
              insnState := InsnState.INSNIDLE }
  | InsnState.SLDCS =>
    { s1 with writeCount := 0, readCount := 1, insnState := InsnState.INSNIDLE }
  | InsnState.SSTCS =>
    { s1 with writeCount := 1, readCount := 0, insnState := InsnState.INSNIDLE }
  | InsnState.SREPEAT =>
    { s1 with writeCount := sizeB, readCount := 0, insnState := InsnState.CAPTURE_REPEAT }
  | InsnState.SKEY =>
    { s1 with writeCount := 8, readCount := 0, insnState := InsnState.INSNIDLE }
  | InsnState.CAPTURE_REPEAT =>
    if updateRepeat then
      if s.writeCount == 1 then
        { s1 with repeatData := capture_repeat_step s.repeatData dataIn,
                  insnState := InsnState.UPDATE_REPEAT }
      else
        { s1 with repeatData := capture_repeat_step s.repeatData dataIn }
    else s1
  | InsnState.UPDATE_REPEAT =>
    { s1 with repCount := dissector_update_repeat s.args s.repeatData,
              insnState := InsnState.INSNIDLE }

/-- One sync-clock step of the `PDIDissector` module: combinational strobes
are computed from the current registers, then the `pdiFSM` updates are
applied, then the `insnFSM` updates (which, being emitted later in the
module, win on conflicting register writes, as in nmigen). -/
def dissectorStep (s : DisState) (i : DisInput) : DisState × DisOutput :=
  let parityInOK := parityValid i.pdiDataIn
  let parityOutOK := parityValid i.pdiDataOut
  let sendHeader := s.pdiState == DisPdiState.HANDLE_WRITE && s.opcode == IDLE
  let updateCounts :=
    (s.pdiState == DisPdiState.HANDLE_WRITE && s.opcode == IDLE) ||
    (s.pdiState == DisPdiState.SEND_DATA && !s.updateCountsNext &&
      s.writeCount == 0 && s.readCount == 0 && s.repCount != 0)
  let updateRepeat := s.pdiState == DisPdiState.HANDLE_WRITE && s.opcode == REPEAT
  let ready := s.pdiState == DisPdiState.SEND_DATA
  let error := s.pdiState == DisPdiState.PARITY_ERROR
  let s1 :=
    match s.pdiState with
    | DisPdiState.RESET => { s with opcode := IDLE, pdiState := DisPdiState.DISIDLE }
    | DisPdiState.DISIDLE =>
      if i.pdiStrobe then { s with pdiState := DisPdiState.CHECK_PARITY } else s
    | DisPdiState.CHECK_PARITY =>
      if s.opcode == IDLE || s.writeCount != 0 then
        if parityInOK then { s with pdiState := DisPdiState.HANDLE_WRITE }
        else { s with pdiState := DisPdiState.PARITY_ERROR }
      else
        if parityOutOK then { s with pdiState := DisPdiState.HANDLE_READ }
        else { s with pdiState := DisPdiState.PARITY_ERROR }
    | DisPdiState.HANDLE_WRITE =>
      if s.opcode == IDLE then
        { s with data := slice i.pdiDataIn 0 8, opcode := slice i.pdiDataIn 5 8,
                 args := slice i.pdiDataIn 0 4, newCommand := true,
                 pdiState := DisPdiState.SEND_DATA }
      else
        { s with data := slice i.pdiDataIn 0 8, writeCount := s.writeCount - 1,
                 pdiState := DisPdiState.SEND_DATA }
    | DisPdiState.HANDLE_READ =>
      { s with data := slice i.pdiDataOut 0 8, readCount := s.readCount - 1,
               pdiState := DisPdiState.SEND_DATA }
    | DisPdiState.SEND_DATA =>
      if !s.updateCountsNext && s.writeCount == 0 && s.readCount == 0 then
        if s.repCount != 0 then
          { s with newCommand := false, pdiState := DisPdiState.DISIDLE }
        else
          { s with opcode := IDLE, pdiState := DisPdiState.DISIDLE }
      else { s with pdiState := DisPdiState.DISIDLE }
    | DisPdiState.PARITY_ERROR =>
      { s with opcode := IDLE, pdiState := DisPdiState.DISIDLE }
  let s2 := dissectorInsnApply s s1 i.pdiDataIn updateCounts updateRepeat
  ({ s2 with updateCountsNext := updateCounts },
   { sendHeader := sendHeader, ready := ready, error := error })

/-- Fold the dissector over a list of per-cycle inputs. -/
def runDissector (s : DisState) : List DisInput → DisState
  | [] => s
  | i :: is => runDissector (dissectorStep s i).1 is

/-- Data bytes delivered by the dissector over a run: the value of the
`data` register at every cycle whose `ready` strobe fires. -/
def dissectorReadySeq (s : DisState) : List DisInput → List Nat
  | [] => []
  | i :: is =>
    let (s1, o) := dissectorStep s i
    if o.ready then s1.data :: dissectorReadySeq s1 is else dissectorReadySeq s1 is

/-- A dissector state fresh out of its RESET state with a given repeat
count pending (all other registers cleared, opcode IDLE). -/
def disStateAfterRepeat (rep : Nat) : DisState :=
  { pdiState := DisPdiState.DISIDLE, insnState := InsnState.INSNIDLE,
    data := 0, opcode := IDLE, args := 0, readCount := 0, writeCount := 0,
    repCount := rep, repeatData := 0, newCommand := false, updateCountsNext := false }

/-! ## Driver PDI controller cycle model (`interactive.py`, `PDIController`) -/

/-- States of the controller byte FSM (`pdi`). -/
inductive CtrlPdiState where
  | CTRLIDLE | SEND_CMD | SEND_DATA | RECV_DATA | WAIT_DATA
  deriving DecidableEq, Repr

/-- Registers of the `PDIController` module. -/
structure CtrlState where
  pdiState : CtrlPdiState
  insnState : InsnState
  readCount : Nat
  writeCount : Nat
  repCount : Nat
  repeatData : Nat
  newCommand : Bool
  tapIssue : Bool
  tapDataOut : Nat
  pdiNeedData : Bool
  deriving DecidableEq, Repr

/-- Per-cycle inputs of the controller: the latched command byte, the issue
and data-handshake strobes from the subtarget, and the TAP-side signals. -/
structure CtrlInput where
  cmd : Nat
  pdiIssue : Bool
  dataReady : Bool
  dataOut : Nat
  tapReady : Bool
  tapDataIn : Nat
  deriving DecidableEq, Repr

/-- The `insn` FSM half of one `PDIController` cycle (`interactive.py`
lines 329-420): conditions and decode inputs are read from the pre-edge
registers `s` and the command byte, and the register writes are applied on
top of `s1`, the state already updated by the `pdi` FSM half. -/
def controllerInsnApply (s s1 : CtrlState) (cmd tapDataIn : Nat)
    (updateCounts updateRepeat : Bool) : CtrlState :=
  let opcode := slice cmd 5 8
  let sizeA := slice cmd 2 4 + 1
  let sizeB := slice cmd 0 2 + 1
  match s.insnState with
  | InsnState.INSNIDLE =>
    if updateCounts then { s1 with insnState := InsnState.DECODE } else s1
  | InsnState.DECODE =>
    if opcode = 0 then { s1 with insnState := InsnState.SLDS }
    else if opcode = 1 then { s1 with insnState := InsnState.SLD }
    else if opcode = 2 then { s1 with insnState := InsnState.SSTS }
    else if opcode = 3 then { s1 with insnState := InsnState.SST }
    else if opcode = 4 then { s1 with insnState := InsnState.SLDCS }
    else if opcode = 6 then { s1 with insnState := InsnState.SSTCS }
    else if opcode = 5 then { s1 with insnState := InsnState.SREPEAT }
    else if opcode = 7 then { s1 with insnState := InsnState.SKEY }
    else s1
  | InsnState.SLDS =>
    { s1 with writeCount := sizeA, readCount := sizeB, insnState := InsnState.INSNIDLE }
  | InsnState.SLD =>
    { s1 with writeCount := 0, readCount := sizeB,
              repCount := if s.repCount != 0 && !s.newCommand then s.repCount - 1
                          else s.repCount,
              insnState := InsnState.INSNIDLE }
  | InsnState.SSTS =>
    { s1 with writeCount := sizeA + sizeB, readCount := 0, insnState := InsnState.INSNIDLE }
  | InsnState.SST =>
    { s1 with writeCount := sizeB, readCount := 0,
              repCount := if s.repCount != 0 && !s.newCommand then s.repCount - 1
                          else s.repCount,
              insnState := InsnState.INSNIDLE }
  | InsnState.SLDCS =>
    { s1 with writeCount := 0, readCount := 1, insnState := InsnState.INSNIDLE }
  | InsnState.SSTCS =>
    { s1 with writeCount := 1, readCount := 0, insnState := InsnState.INSNIDLE }
  | InsnState.SREPEAT =>
    { s1 with writeCount := sizeB, readCount := 0, insnState := InsnState.CAPTURE_REPEAT }
  | InsnState.SKEY =>
    { s1 with writeCount := 8, readCount := 0, insnState := InsnState.INSNIDLE }
  | InsnState.CAPTURE_REPEAT =>
    if updateRepeat then
      if s.writeCount == 1 then
        { s1 with repeatData := capture_repeat_step s.repeatData tapDataIn,
                  insnState := InsnState.UPDATE_REPEAT }
      else
        { s1 with repeatData := capture_repeat_step s.repeatData tapDataIn }
    else s1
  | InsnState.UPDATE_REPEAT =>
    { s1 with repCount := controller_update_repeat (slice cmd 0 2) s.repeatData,
              insnState := InsnState.INSNIDLE }

/-- One sync-clock step of the `PDIController` module.  `updateRepeat` is
combinationally driven to 0 at line 282 of `interactive.py` and never
assigned anywhere else, so it is the constant `false` here.  The `pdi` FSM
updates are applied first, then the `insn` FSM updates on top (later
assignments win, as in nmigen). -/
def controllerStep (s : CtrlState) (i : CtrlInput) : CtrlState × Bool :=
  let updateCounts := s.pdiState == CtrlPdiState.CTRLIDLE && i.pdiIssue
  let updateRepeat := false
  let complete := s.pdiState == CtrlPdiState.WAIT_DATA && i.tapReady &&
    s.writeCount == 0 && s.readCount == 0
  let s1 :=
    match s.pdiState with
    | CtrlPdiState.CTRLIDLE =>
      if i.pdiIssue then
        { s with tapDataOut := encodePdi i.cmd, tapIssue := true, newCommand := true,
                 pdiState := CtrlPdiState.SEND_CMD }
      else s
    | CtrlPdiState.SEND_CMD =>
      if i.tapReady then
        if s.writeCount != 0 then
          { s with tapIssue := false, newCommand := false, pdiNeedData := true,
                   pdiState := CtrlPdiState.SEND_DATA }
        else
          { s with tapIssue := false, newCommand := false,
                   pdiState := CtrlPdiState.RECV_DATA }
      else s
    | CtrlPdiState.SEND_DATA =>
      if i.dataReady then
        { s with pdiNeedData := false, tapDataOut := encodePdi i.dataOut,
                 tapIssue := true, writeCount := s.writeCount - 1,
                 pdiState := CtrlPdiState.WAIT_DATA }
      else s
    | CtrlPdiState.RECV_DATA => s
    | CtrlPdiState.WAIT_DATA =>
      if i.tapReady then
        if s.writeCount != 0 then
          { s with tapIssue := false, pdiNeedData := true,
                   pdiState := CtrlPdiState.SEND_DATA }
        else if s.readCount != 0 then
          { s with tapIssue := false, pdiState := CtrlPdiState.RECV_DATA }
        else
          { s with tapIssue := false, pdiState := CtrlPdiState.CTRLIDLE }
      else s
  (controllerInsnApply s s1 i.cmd i.tapDataIn updateCounts updateRepeat, complete)

/-- Fold the controller over a list of per-cycle inputs. -/
def runController (s : CtrlState) : List CtrlInput → CtrlState
  | [] => s
  | i :: is => runController (controllerStep s i).1 is

/-- True when the controller asserts `complete` on any cycle of the run. -/
def controllerCompletes (s : CtrlState) : List CtrlInput → Bool
  | [] => false
  | i :: is =>
    let (s1, c) := controllerStep s i
    c || controllerCompletes s1 is

/-- The power-on register state of the controller (all registers zero,
both FSMs in their first state). -/
def ctrlInit : CtrlState :=
  { pdiState := CtrlPdiState.CTRLIDLE, insnState := InsnState.INSNIDLE,
    readCount := 0, writeCount := 0, repCount := 0, repeatData := 0,
    newCommand := false, tapIssue := false, tapDataOut := 0, pdiNeedData := false }

/-! ## Host-facing command adapter (`interactive.py`, `JTAGPDIInteractiveSubtarget`) -/

/-- States of the subtarget FSM. -/
inductive SubState where
  | SUBIDLE | READ_HEADER | DECODE_HEADER | WAIT_RESET | WAIT_IDCODE
  | SEND_IDCODE_3 | SEND_IDCODE_2 | SEND_IDCODE_1 | SEND_IDCODE_0
  | READ_PDI_CMD | HANDLE_PDI
  deriving DecidableEq, Repr

/-- Registers driven by the subtarget FSM (its own `header` register plus
the issue/command/data registers it drives in the TAP and controller). -/
structure SubRegs where
  fsm : SubState
  header : Nat
  resetIssue : Bool
  idCodeIssue : Bool
  pdiIssue : Bool
  pdiCmd : Nat
  pdiDataOut : Nat
  deriving DecidableEq, Repr

/-- Per-cycle inputs of the subtarget FSM: host FIFO state, completion
strobes of the TAP, and the controller handshake. -/
structure SubInput where
  r_rdy : Bool
  r_data : Nat
  resetComplete : Bool
  idCodeReady : Bool
  pdiNeedData : Bool
  pdiComplete : Bool
  idCode : Nat
  deriving DecidableEq, Repr

/-- Combinational outputs of the subtarget FSM in one cycle. -/
structure SubOutput where
  r_en : Bool
  w_en : Bool
  w_data : Nat
  pdiDataReady : Bool
  deriving DecidableEq, Repr

/-- One sync-clock step of the subtarget FSM (`interactive.py` lines
452-531). -/
def subtargetStep (s : SubRegs) (i : SubInput) : SubRegs × SubOutput :=
  let noOut : SubOutput := { r_en := false, w_en := false, w_data := 0, pdiDataReady := false }
  match s.fsm with
  | SubState.SUBIDLE =>
    (if i.r_rdy then { s with fsm := SubState.READ_HEADER } else s, noOut)
  | SubState.READ_HEADER =>
    ({ s with header := i.r_data, fsm := SubState.DECODE_HEADER },
     { noOut with r_en := true })
  | SubState.DECODE_HEADER =>
    (if s.header = headerReset then
      { s with resetIssue := true, fsm := SubState.WAIT_RESET }
     else if s.header = headerIDCode then
      { s with idCodeIssue := true, fsm := SubState.WAIT_IDCODE }
     else if s.header = headerPDI then
      { s with fsm := SubState.READ_PDI_CMD }
     else { s with fsm := SubState.SUBIDLE }, noOut)
  | SubState.WAIT_RESET =>
    if i.resetComplete then
      ({ s with resetIssue := false, fsm := SubState.SUBIDLE },
       { noOut with w_en := true, w_data := 1 })
    else (s, noOut)
  | SubState.WAIT_IDCODE =>
    (if i.idCodeReady then
      { s with idCodeIssue := false, fsm := SubState.SEND_IDCODE_3 }
     else s, noOut)
  | SubState.SEND_IDCODE_3 =>
    ({ s with fsm := SubState.SEND_IDCODE_2 },
     { noOut with w_en := true, w_data := slice i.idCode 24 32 })
  | SubState.SEND_IDCODE_2 =>
    ({ s with fsm := SubState.SEND_IDCODE_1 },
     { noOut with w_en := true, w_data := slice i.idCode 16 24 })
  | SubState.SEND_IDCODE_1 =>
    ({ s with fsm := SubState.SEND_IDCODE_0 },
     { noOut with w_en := true, w_data := slice i.idCode 8 16 })
  | SubState.SEND_IDCODE_0 =>
    ({ s with fsm := SubState.SUBIDLE },
     { noOut with w_en := true, w_data := slice i.idCode 0 8 })
  | SubState.READ_PDI_CMD =>
    if i.r_rdy then
      ({ s with pdiIssue := true, pdiCmd := i.r_data, fsm := SubState.HANDLE_PDI },
       { noOut with r_en := true })
    else (s, noOut)
  | SubState.HANDLE_PDI =>
    if i.r_rdy && i.pdiNeedData then
      ({ s with pdiIssue := true, pdiDataOut := i.r_data },
       { noOut with r_en := true, pdiDataReady := true })
    else if i.pdiComplete then
      ({ s with pdiIssue := false, fsm := SubState.SUBIDLE }, noOut)
    else (s, noOut)

/-! ## Driver TAP state machine (`interactive.py`, `JTAGTAP`) -/

/-- States of the driver TAP FSM (`jtag`); the driver merges EXIT1/EXIT2
into single EXIT states and has no PAUSE states. -/
inductive DrvTapState where
  | RESET | DRVIDLE
  | SELECT_DR | CAPTURE_DR | SHIFT_DR | EXIT_DR | UPDATE_DR
  | SELECT_IR | CAPTURE_IR | SHIFT_IR | EXIT_IR | UPDATE_IR
  deriving DecidableEq, Repr

/-- Registers of the driver TAP FSM. -/
structure DrvTapRegs where
  fsm : DrvTapState
  resetTimer : Nat
  insn : Nat
  insnNext : Nat
  insnCounter : Nat
  dataIn : Nat
  dataOut : Nat
  dataCounter : Nat
  idCode : Nat
  pdiDataIn : Nat
  deriving DecidableEq, Repr

/-- Per-cycle inputs of the driver TAP FSM. -/
structure DrvTapInput where
  mayUpdate : Bool
  resetIssue : Bool
  idCodeIssue : Bool
  pdiIssue : Bool
  tdi : Bool
  pdiDataOut : Nat
  deriving DecidableEq, Repr

/-- Combinational outputs of the driver TAP FSM in one cycle. -/
structure DrvTapOutput where
  tms : Bool
  tdo : Bool
  cycleReady : Bool
  resetComplete : Bool
  idCodeReady : Bool
  pdiReady : Bool
  deriving DecidableEq, Repr

/-- One sync-clock step of the driver TAP FSM (`interactive.py` lines
114-240).  Every state acts only under `mayUpdate`; `tms` defaults to 0 and
`tdo` to 1. -/
def driverTapStep (s : DrvTapRegs) (i : DrvTapInput) : DrvTapRegs × DrvTapOutput :=
  let noOut : DrvTapOutput :=
    { tms := false, tdo := true, cycleReady := false,
      resetComplete := false, idCodeReady := false, pdiReady := false }
  if !i.mayUpdate then (s, noOut) else
  match s.fsm with
  | DrvTapState.RESET =>
    if s.resetTimer != 0 then
      ({ s with resetTimer := s.resetTimer - 1 }, { noOut with tms := true, cycleReady := true })
    else
      ({ s with resetTimer := 2, insn := bypassInsn, fsm := DrvTapState.DRVIDLE },
       { noOut with cycleReady := true, resetComplete := true })
  | DrvTapState.DRVIDLE =>
    if i.resetIssue || i.idCodeIssue || i.pdiIssue then
      ({ s with fsm := DrvTapState.SELECT_DR }, { noOut with tms := true, cycleReady := true })
    else (s, { noOut with cycleReady := true })
  | DrvTapState.SELECT_DR =>
    if i.resetIssue then
      ({ s with fsm := DrvTapState.SELECT_IR }, { noOut with tms := true, cycleReady := true })
    else if (i.idCodeIssue && s.insn == idCodeInsn) || (i.pdiIssue && s.insn == pdiComInsn) then
      ({ s with fsm := DrvTapState.CAPTURE_DR }, { noOut with cycleReady := true })
    else if i.idCodeIssue || i.pdiIssue then
      ({ s with fsm := DrvTapState.SELECT_IR }, { noOut with tms := true, cycleReady := true })
    else (s, { noOut with cycleReady := true })
  | DrvTapState.CAPTURE_DR =>
    let s1 := if i.idCodeIssue then { s with dataCounter := 31 } else s
    let s2 := if i.pdiIssue then { s1 with dataOut := i.pdiDataOut, dataCounter := 9 } else s1
    ({ s2 with fsm := DrvTapState.SHIFT_DR }, { noOut with cycleReady := true })
  | DrvTapState.SHIFT_DR =>
    let tdoBit := s.dataOut.testBit 0
    let shifted := fun (t : DrvTapRegs) =>
      { t with dataOut := t.dataOut >>> 1,
               dataIn := (t.dataIn >>> 1) ||| ((if i.tdi then 1 else 0) <<< 31) }
    if s.dataCounter != 0 then
      (shifted { s with dataCounter := s.dataCounter - 1 },
       { noOut with tdo := tdoBit, cycleReady := true })
    else
      (shifted { s with fsm := DrvTapState.EXIT_DR },
       { noOut with tms := true, tdo := tdoBit, cycleReady := true })
  | DrvTapState.EXIT_DR =>
    ({ s with fsm := DrvTapState.UPDATE_DR }, { noOut with tms := true, cycleReady := true })
  | DrvTapState.UPDATE_DR =>
    if i.idCodeIssue then
      ({ s with idCode := s.dataIn, fsm := DrvTapState.DRVIDLE },
       { noOut with cycleReady := true, idCodeReady := true })
    else if i.pdiIssue then
      ({ s with pdiDataIn := slice s.dataIn 23 32, fsm := DrvTapState.DRVIDLE },
       { noOut with cycleReady := true, pdiReady := true })
    else ({ s with fsm := DrvTapState.DRVIDLE }, { noOut with cycleReady := true })
  | DrvTapState.SELECT_IR =>
    if i.resetIssue then
      ({ s with fsm := DrvTapState.RESET }, { noOut with tms := true, cycleReady := true })
    else if i.idCodeIssue || i.pdiIssue then
      ({ s with fsm := DrvTapState.CAPTURE_IR }, { noOut with cycleReady := true })
    else (s, { noOut with cycleReady := true })
  | DrvTapState.CAPTURE_IR =>
    let s1 := if i.idCodeIssue then { s with insnNext := idCodeInsn }
              else if i.pdiIssue then { s with insnNext := pdiComInsn }
              else s
    ({ s1 with insnCounter := 3, fsm := DrvTapState.SHIFT_IR },
     { noOut with cycleReady := true })
  | DrvTapState.SHIFT_IR =>
    let tdoBit := s.insnNext.testBit 0
    if s.insnCounter != 0 then
      ({ s with insnCounter := s.insnCounter - 1, insnNext := slice s.insnNext 1 4 },
       { noOut with tdo := tdoBit, cycleReady := true })
    else
      ({ s with fsm := DrvTapState.EXIT_IR },
       { noOut with tms := true, tdo := tdoBit, cycleReady := true })
  | DrvTapState.EXIT_IR =>
    ({ s with fsm := DrvTapState.UPDATE_IR }, { noOut with tms := true, cycleReady := true })
  | DrvTapState.UPDATE_IR =>
    let s1 := if i.idCodeIssue then { s with insn := idCodeInsn }
              else if i.pdiIssue then { s with insn := pdiComInsn }
              else s
    if i.idCodeIssue || i.pdiIssue then
      ({ s1 with fsm := DrvTapState.SELECT_DR }, { noOut with tms := true, cycleReady := true })
    else ({ s1 with fsm := DrvTapState.DRVIDLE }, { noOut with cycleReady := true })

/-! ## Observer TAP full step (`sniffer.py`, `JTAGTAP`) -/

/-- Registers of the observer TAP module. -/
structure ObsTapRegs where
  fsm : TapState
  shiftDR : Bool
  shiftIR : Bool
  insn : Nat
  insnNext : Nat
  dataIn : Nat
  dataOut : Nat
  idCode : Nat
  pdiDataIn : Nat
  pdiDataOut : Nat
  deriving DecidableEq, Repr

/-- Per-cycle bus sample consumed by the observer TAP. -/
structure ObsTapInput where
  tms : Bool
  tdi : Bool
  tdo : Bool
  deriving DecidableEq, Repr

/-- One jtag-clock step of the observer TAP (`sniffer.py` lines 51-153):
the FSM state advances by `tapStep`, per-state sync actions latch the
shift-enable flags and the instruction register, and the shared
shift/update logic runs on the current flags. -/
def observerTapStep (s : ObsTapRegs) (i : ObsTapInput) : ObsTapRegs × Bool × Bool :=
  let updateDR := s.fsm == TapState.UPDATE_DR
  let updateIR := s.fsm == TapState.UPDATE_IR
  let idCodeReady := updateDR && s.insn == idCodeInsn
  let pdiReady := updateDR && s.insn == pdiComInsn
  let s1 :=
    match s.fsm with
    | TapState.RESET =>
      if !i.tms then { s with shiftDR := false, shiftIR := false, insn := idCodeInsn } else s
    | TapState.CAPTURE_DR => if !i.tms then { s with shiftDR := true } else s
    | TapState.SHIFT_DR => if i.tms then { s with shiftDR := false } else s
    | TapState.CAPTURE_IR => if !i.tms then { s with shiftIR := true } else s
    | TapState.SHIFT_IR => if i.tms then { s with shiftIR := false } else s
    | _ => s
  let s2 :=
    if s.shiftDR then
      { s1 with dataIn := (s.dataIn >>> 1) ||| ((if i.tdi then 1 else 0) <<< 31),
                dataOut := (s.dataOut >>> 1) ||| ((if i.tdo then 1 else 0) <<< 31) }
    else if updateDR then
      if s.insn == idCodeInsn then { s1 with idCode := s.dataOut }
      else if s.insn == pdiComInsn then
        { s1 with pdiDataIn := slice s.dataIn 23 32, pdiDataOut := slice s.dataOut 23 32 }
      else s1
    else s1
  let s3 :=
    if s.shiftIR then
      { s2 with insnNext := (slice s.insnNext 1 4) ||| ((if i.tdi then 1 else 0) <<< 3) }
    else if updateIR then { s2 with insn := s.insnNext }
    else s2
  ({ s3 with fsm := tapStep s.fsm i.tms }, idCodeReady, pdiReady)

/-! ## The repeat-driven re-decode loop of the dissector -/

/-- The dissector's repeat loop (`sniffer.py` SEND-DATA, lines 259-267):
after the counts of one decode are consumed, while `repCount` is nonzero
the insn FSM re-decodes the same opcode with `newCommand = 0`.  Each pass
contributes one `(writeCount, readCount)` setting; `fuel` bounds the number
of re-decodes. -/
def codec_iterate (op sizeA sizeB : Nat) : Nat → Nat → List (Nat × Nat) × Nat
  | 0, rep => ([], rep)
  | fuel + 1, rep =>
    match dissector_insn_decode op sizeA sizeB rep false with
    | none => ([], rep)
    | some (w, r, rep1) =>
      if rep1 ≠ 0 then
        let rest := codec_iterate op sizeA sizeB fuel rep1
        ((w, r) :: rest.1, rest.2)
      else ([(w, r)], rep1)

/-- A full decoded transaction for one opcode byte in the dissector: the
fresh decode with `newCommand = 1`, then the repeat loop while `repCount`
is nonzero. -/
def codec_session (op sizeA sizeB rep fuel : Nat) : List (Nat × Nat) × Nat :=
  match dissector_insn_decode op sizeA sizeB rep true with
  | none => ([], rep)
  | some (w, r, rep1) =>
    if rep1 ≠ 0 then
      let rest := codec_iterate op sizeA sizeB fuel rep1
      ((w, r) :: rest.1, rest.2)
    else ([(w, r)], rep1)

/-! ## Concrete cycle traces used in the theorems

The 9-bit units below are `encodePdi` values: `encodePdi 0x24 = 36`,
`encodePdi 0x1E = 30`, `encodePdi 0x98 = 408`, `encodePdi 0x42 = 66`,
`encodePdi 0xA1 = 417`, `encodePdi 0x80 = 384`. -/

/-- Dissector input trace: an LD command byte `0x24` (sizeB = 1) followed by
three read data bytes `0x1E`, `0x98`, `0x42`, as captured after a REPEAT of
2 — the scenario exercised by `sim-interactive.py` lines 146-157. -/
def disLdTrace : List DisInput := [
  ⟨true, 36, 0⟩, ⟨false, 36, 0⟩, ⟨false, 36, 0⟩, ⟨false, 0, 0⟩, ⟨false, 0, 0⟩,
  ⟨true, 0, 30⟩, ⟨false, 0, 30⟩, ⟨false, 0, 30⟩, ⟨false, 0, 0⟩, ⟨false, 0, 0⟩,
  ⟨false, 0, 0⟩,
  ⟨true, 0, 408⟩, ⟨false, 0, 408⟩, ⟨false, 0, 408⟩, ⟨false, 0, 0⟩, ⟨false, 0, 0⟩,
  ⟨false, 0, 0⟩,
  ⟨true, 0, 66⟩, ⟨false, 0, 66⟩, ⟨false, 0, 66⟩, ⟨false, 0, 0⟩]

/-- Controller input trace: the subtarget issues a REPEAT command `0xA1`
(sizeB = 2) and supplies the payload bytes `0x02`, `0x00`, with `tapReady`
pulsing after each 9-bit shift — the command sequence of
`sim-interactive.py` lines 135-144. -/
def ctrlRepTrace : List CtrlInput := [
  ⟨0xA1, true, false, 0, false, 0⟩, ⟨0xA1, true, false, 0, false, 0⟩,
  ⟨0xA1, true, false, 0, false, 0⟩, ⟨0xA1, true, false, 0, true, 0⟩,
  ⟨0xA1, true, true, 0x02, false, 0⟩, ⟨0xA1, true, false, 0, false, 0⟩,
  ⟨0xA1, true, false, 0, true, 0⟩, ⟨0xA1, true, true, 0x00, false, 0⟩,
  ⟨0xA1, true, false, 0, false, 0⟩, ⟨0xA1, true, false, 0, true, 0⟩,
  ⟨0xA1, false, false, 0, false, 0⟩]

/-- Continuation of `ctrlRepTrace`: the subtarget then issues the LD
command `0x24` (sizeB = 1), for which the bench expects three read bytes. -/
def ctrlLdTrace : List CtrlInput := [
  ⟨0x24, true, false, 0, false, 0⟩, ⟨0x24, true, false, 0, false, 0⟩,
  ⟨0x24, true, false, 0, false, 0⟩, ⟨0x24, true, false, 0, true, 0⟩]

/-- Controller input trace: the subtarget issues the LDCS command `0x80`
(readCount 1, writeCount 0) and then keeps pulsing `tapReady` — the command
of `sim-interactive.py` lines 125-133, whose bench expects one read byte
back. -/
def ctrlLdcsTrace : List CtrlInput := [
  ⟨0x80, true, false, 0, false, 0⟩, ⟨0x80, true, false, 0, false, 0⟩,
  ⟨0x80, true, false, 0, false, 0⟩, ⟨0x80, true, false, 0, true, 0⟩,
  ⟨0x80, true, false, 0, true, 0⟩, ⟨0x80, true, false, 0, true, 0⟩,
  ⟨0x80, true, false, 0, true, 0⟩, ⟨0x80, true, false, 0, true, 0⟩]

/-! ## Helper lemmas -/

/-- The insn FSM half of a dissector cycle never writes the byte-FSM state
register. -/
lemma dissectorInsnApply_pdiState (s s1 : DisState) (d : Nat) (uc ur : Bool) :
    (dissectorInsnApply s s1 d uc ur).pdiState = s1.pdiState := by
  cases h : s.insnState <;> simp [dissectorInsnApply, h] <;> split_ifs <;> rfl

/-- The insn FSM half of a dissector cycle never writes the opcode
register. -/
lemma dissectorInsnApply_opcode (s s1 : DisState) (d : Nat) (uc ur : Bool) :
    (dissectorInsnApply s s1 d uc ur).opcode = s1.opcode := by
  cases h : s.insnState <;> simp [dissectorInsnApply, h] <;> split_ifs <;> rfl

/-- The insn FSM half of a controller cycle never writes the byte-FSM state
register. -/
lemma controllerInsnApply_pdiState (s s1 : CtrlState) (c d : Nat) (uc ur : Bool) :
    (controllerInsnApply s s1 c d uc ur).pdiState = s1.pdiState := by
  cases h : s.insnState <;> simp [controllerInsnApply, h] <;> split_ifs <;> rfl

/-- Unfolding of `reverse_count` for one byte. -/
lemma reverse_count_one (acc : Nat) :
    reverse_count acc 1 = 0 ||| ((acc >>> 0) &&& (2 ^ 8 - 1)) <<< 0 := rfl

/-- Unfolding of `reverse_count` for two bytes. -/
lemma reverse_count_two (acc : Nat) :
    reverse_count acc 2 =
      (0 ||| ((acc >>> 0) &&& (2 ^ 8 - 1)) <<< 8) ||| ((acc >>> 8) &&& (2 ^ 8 - 1)) <<< 0 := rfl

/-- Unfolding of `reverse_count` for three bytes. -/
lemma reverse_count_three (acc : Nat) :
    reverse_count acc 3 =
      ((0 ||| ((acc >>> 0) &&& (2 ^ 8 - 1)) <<< 16) |||
        ((acc >>> 8) &&& (2 ^ 8 - 1)) <<< 8) |||
        ((acc >>> 16) &&& (2 ^ 8 - 1)) <<< 0 := rfl

/-- Unfolding of `reverse_count` for four bytes. -/
lemma reverse_count_four (acc : Nat) :
    reverse_count acc 4 =
      (((0 ||| ((acc >>> 0) &&& (2 ^ 8 - 1)) <<< 24) |||
        ((acc >>> 8) &&& (2 ^ 8 - 1)) <<< 16) |||
        ((acc >>> 16) &&& (2 ^ 8 - 1)) <<< 8) |||
        ((acc >>> 24) &&& (2 ^ 8 - 1)) <<< 0 := rfl

/-- Any byte extracted by `byteAt` has no bits at position 8 or above. -/
lemma byteAt_testBit_high (x j k : Nat) (hk : 8 ≤ k) : (byteAt x j).testBit k = false := by
  have hlt : byteAt x j < 2 ^ k :=
    lt_of_lt_of_le (Nat.mod_lt _ (by decide)) (Nat.pow_le_pow_right (by decide) hk)
  exact Nat.testBit_lt_two_pow hlt

/-- testBit of the literal 255 mask. -/
lemma testBit_255 (k : Nat) : Nat.testBit 255 k = decide (k < 8) := by
  rw [show (255 : Nat) = 2 ^ 8 - 1 from rfl, Nat.testBit_two_pow_sub_one]

/-- testBit through a mod-256 reduction, with the numeral spelled out. -/
lemma testBit_mod_256 (x k : Nat) :
    (x % 256).testBit k = (decide (k < 8) && x.testBit k) := by
  rw [show (256 : Nat) = 2 ^ 8 from rfl, Nat.testBit_mod_two_pow]

/-- Masking with 255 is reduction mod 256. -/
lemma and_255_eq_mod (x : Nat) : x &&& 255 = x % 256 := by
  apply Nat.eq_of_testBit_eq
  intro k
  rw [Nat.testBit_and, testBit_255, testBit_mod_256, Bool.and_comm]

set_option maxHeartbeats 2000000 in
/-- Byte `i` of the accumulator becomes byte `N - 1 - i` of
`reverse_count acc N`, for every payload width `N` in 1..4. -/
lemma reverse_count_byteAt (acc N i : Nat) (h1 : 1 ≤ N) (h2 : N ≤ 4) (hi : i < N) :
    byteAt (reverse_count acc N) (N - 1 - i) = byteAt acc i := by
  interval_cases N <;> interval_cases i <;>
    (apply Nat.eq_of_testBit_eq
     intro k
     rcases Nat.lt_or_ge k 8 with hk | hk
     · interval_cases k <;>
         simp [byteAt, reverse_count_one, reverse_count_two, reverse_count_three,
           reverse_count_four, and_255_eq_mod, testBit_mod_256,
           Nat.testBit_shiftRight, Nat.testBit_or, Nat.testBit_shiftLeft,
           -Nat.testBit_zero]
     · rw [byteAt_testBit_high _ _ _ hk, byteAt_testBit_high _ _ _ hk])

/-- The dissector repeat loop for LD yields exactly `n` further passes of
`(writeCount, readCount) = (0, sizeB)` when entered with repeat count `n`,
ending with repeat count 0. -/
lemma codec_iterate_ld (sizeA sizeB : Nat) :
    ∀ n : Nat, codec_iterate 1 sizeA sizeB (n + 1) (n + 1) =
      (List.replicate (n + 1) (0, sizeB), 0) := by
  intro n
  induction n with
  | zero => rfl
  | succ n ih =>
    show ((0, sizeB) :: (codec_iterate 1 sizeA sizeB (n + 1) (n + 1)).1,
          (codec_iterate 1 sizeA sizeB (n + 1) (n + 1)).2) =
      (List.replicate (n + 1 + 1) (0, sizeB), 0)
    rw [ih]
    rfl

/-- The dissector repeat loop for ST, symmetrically. -/
lemma codec_iterate_st (sizeA sizeB : Nat) :
    ∀ n : Nat, codec_iterate 3 sizeA sizeB (n + 1) (n + 1) =
      (List.replicate (n + 1) (sizeB, 0), 0) := by
  intro n
  induction n with
  | zero => rfl
  | succ n ih =>
    show ((sizeB, 0) :: (codec_iterate 3 sizeA sizeB (n + 1) (n + 1)).1,
          (codec_iterate 3 sizeA sizeB (n + 1) (n + 1)).2) =
      (List.replicate (n + 1 + 1) (sizeB, 0), 0)
    rw [ih]
    rfl

/-- A full LD transaction decoded by the dissector with pending repeat
count R is R+1 passes of `(0, sizeB)` and ends with repeat count 0. -/
lemma codec_session_ld (sizeA sizeB R : Nat) :
    codec_session 1 sizeA sizeB R R = (List.replicate (R + 1) (0, sizeB), 0) := by
  cases R with
  | zero => rfl
  | succ n =>
    show ((0, sizeB) :: (codec_iterate 1 sizeA sizeB (n + 1) (n + 1)).1,
          (codec_iterate 1 sizeA sizeB (n + 1) (n + 1)).2) =
      (List.replicate (n + 1 + 1) (0, sizeB), 0)
    rw [codec_iterate_ld sizeA sizeB n]
    rfl

/-- A full ST transaction decoded by the dissector with pending repeat
count R is R+1 passes of `(sizeB, 0)` and ends with repeat count 0. -/
lemma codec_session_st (sizeA sizeB R : Nat) :
    codec_session 3 sizeA sizeB R R = (List.replicate (R + 1) (sizeB, 0), 0) := by
  cases R with
  | zero => rfl
  | succ n =>
    show ((sizeB, 0) :: (codec_iterate 3 sizeA sizeB (n + 1) (n + 1)).1,
          (codec_iterate 3 sizeA sizeB (n + 1) (n + 1)).2) =
      (List.replicate (n + 1 + 1) (sizeB, 0), 0)
    rw [codec_iterate_st sizeA sizeB n]
    rfl

/-! ## Theorems -/

/-- C5: for every REPEAT payload of N bytes (N in 1..4), the final software
repeat count is the byte reversal of the big-endian-incrementally
accumulated value — byte i of the accumulator becomes byte (N-1-i) of the
final count — and in particular the size-2 payload 0x01, 0x00 yields
repeat count 0x0001. -/
theorem C5_repeat_reversal :
    (∀ bytes : List Nat, 1 ≤ bytes.length → bytes.length ≤ 4 →
      ∀ i, i < bytes.length →
        byteAt (software_repeat_count bytes) (bytes.length - 1 - i) =
          byteAt (accumulate_repeat bytes) i) ∧
    software_repeat_count [0x01, 0x00] = 0x0001 := by
  refine ⟨fun bytes h1 h2 i hi => ?_, by decide⟩
  exact reverse_count_byteAt (accumulate_repeat bytes) bytes.length i h1 h2 hi

/-- C5 witness: the reversal property applied to the concrete size-2
payload 0x01, 0x00, where the accumulator 0x0100 reverses to 0x0001. -/
theorem C5_repeat_reversal_witness :
    byteAt (software_repeat_count [0x01, 0x00]) 1 =
      byteAt (accumulate_repeat [0x01, 0x00]) 0 :=
  C5_repeat_reversal.1 [0x01, 0x00] (by decide) (by decide) 0 (by decide)

/-- C3: the TAP state-transition function is pure in (state, decision bit),
agrees with the IEEE-1149.1 table written in §4.1 on all 16 states, and
from RESET the decision-bit sequence [0,1,1,0,0,0,1,1] visits UPDATE-IR
exactly once (on the final step) and UPDATE-DR never. -/
theorem C3_tap_transition :
    (∀ (s : TapState) (b : Bool), tapStep s b = tapStepSpec s b) ∧
    (tapTrace TapState.RESET
      [false, true, true, false, false, false, true, true]).count TapState.UPDATE_IR = 1 ∧
    (tapTrace TapState.RESET
      [false, true, true, false, false, false, true, true]).getLast? =
        some TapState.UPDATE_IR ∧
    (tapTrace TapState.RESET
      [false, true, true, false, false, false, true, true]).count TapState.UPDATE_DR = 0 := by
  refine ⟨fun s b => ?_, by decide, by decide, by decide⟩
  cases s <;> cases b <;> rfl

/-- C9 counterexample: the claim reads the part number from bits [23:12] of
the ID code, but `meta.py` reads bits [27:12].  On the input
[0x09, 0x84, 0x20, 0x3F] the code resolves the part to "ATXMega256A3U"
(16-bit field 0x9842), while the claimed 12-bit field 0x842 has no table
entry and would fall back to the hex string "0x842". -/
theorem C9_part_field_counterexample :
    (decode_device_id_code [0x09, 0x84, 0x20, 0x3F]).2.2.2 = "ATXMega256A3U" ∧
    (decode_device_id_code_claim [0x09, 0x84, 0x20, 0x3F]).2.2.2 = "0x842" ∧
    avr_idcode (slice (to_int32_be [0x09, 0x84, 0x20, 0x3F]) 12 24) = none ∧
    decode_device_id_code [0x09, 0x84, 0x20, 0x3F] ≠
      decode_device_id_code_claim [0x09, 0x84, 0x20, 0x3F] := by
  refine ⟨rfl, rfl, rfl, by decide⟩

/-- C9 amended: `decode_device_id_code` is a pure function of the four
input bytes returning the zero-padded 10-character lowercase hex string of
the 32-bit big-endian value, the manufacturer looked up from bits [11:1]
(unknown yields "INVALID"), the version from bits [31:28], and the part
looked up from bits [27:12] (unknown yields a hex fallback); in particular
decode([0x69, 0x84, 0x20, 0x3F]) = ("0x6984203f", "Atmel", 6,
"ATXMega256A3U"). -/
theorem C9_device_id :
    (∀ bytes : List Nat,
      decode_device_id_code bytes =
        (pyHexTagged010 (to_int32_be bytes),
         (jedec_id (slice (to_int32_be bytes) 1 12)).getD "INVALID",
         slice (to_int32_be bytes) 28 32,
         (avr_idcode (slice (to_int32_be bytes) 12 28)).getD
           (pyHexTagged (slice (to_int32_be bytes) 12 28)))) ∧
    decode_device_id_code [0x69, 0x84, 0x20, 0x3F] =
      ("0x6984203f", "Atmel", 6, "ATXMega256A3U") ∧
    decode_device_id_code [0x00, 0x00, 0x00, 0x00] =
      ("0x00000000", "INVALID", 0, "0x0") := by
  exact ⟨fun bytes => rfl, by decide, by decide⟩

set_option maxRecDepth 100000 in
/-- C10: opcode decoding is total.  The opcode field of a PDI command byte
is its top three bits, so it is always below 8 and never the IDLE value
0xF; the software handler dictionary has an entry for every such value, and
the DECODE dispatch of both gateware insn FSMs has a case (hence a decoded
count) for every such value. -/
theorem C10_opcode_totality :
    (∀ b : Nat, b < 256 →
      (pdi_handlers ((b &&& 0xE0) >>> 5)).isSome = true ∧
      slice b 5 8 < 8 ∧ slice b 5 8 ≠ IDLE) ∧
    (∀ op : Nat, op < 8 → ∀ sizeA sizeB rep : Nat, ∀ nc : Bool,
      (dissector_insn_decode op sizeA sizeB rep nc).isSome = true ∧
      (controller_insn_decode op sizeA sizeB rep nc).isSome = true) := by
  constructor
  · decide
  · intro op hop sizeA sizeB rep nc
    interval_cases op <;>
      simp [dissector_insn_decode, controller_insn_decode]

/-- C10 witness: the totality facts instantiated at the opcode byte 0xC0
(STCS) and at opcode value 6. -/
theorem C10_opcode_totality_witness :
    (pdi_handlers ((0xC0 &&& 0xE0) >>> 5)).isSome = true ∧
    (dissector_insn_decode 6 1 1 0 true).isSome = true := by
  refine ⟨(C10_opcode_totality.1 0xC0 (by decide)).1,
    (C10_opcode_totality.2 6 (by decide) 1 1 0 true).1⟩

/-- C1: the decoded counts.  The software codec realizes the §4.2 table
exactly for every opcode, size field pair and repeat count (first
conjunct); the observer codec realizes the LD/ST repeat multiplication as
R+1 successive passes of (readCount or writeCount) = sizeB ending with
repeat count 0 (second and third conjuncts), shown also cycle-accurately on
the captured REPEAT-2-then-LD traffic (fourth and fifth conjuncts).  The
driver codec, however, does not: after driving the same REPEAT command its
repeat count register is still 0 and its insn FSM is wedged in
CAPTURE-REPEAT (sixth conjunct), and the following LD command decodes no
read bytes at all instead of sizeB times (R+1) = 3 (last conjunct) — the
code-bug side of this claim. -/
theorem C1_decode_counts :
    (∀ a b : Nat, a < 4 → b < 4 → ∀ R : Nat,
      decode_counts LDS ((a <<< 2) ||| b) R = some (b + 1, a + 1) ∧
      decode_counts LD ((a <<< 2) ||| b) R = some ((b + 1) * (R + 1), 0) ∧
      decode_counts STS ((a <<< 2) ||| b) R = some (0, (a + 1) + (b + 1)) ∧
      decode_counts ST ((a <<< 2) ||| b) R = some (0, (b + 1) * (R + 1)) ∧
      decode_counts LDCS ((a <<< 2) ||| b) R = some (1, 0) ∧
      decode_counts STCS ((a <<< 2) ||| b) R = some (0, 1) ∧
      decode_counts REPEAT ((a <<< 2) ||| b) R = some (0, b + 1) ∧
      decode_counts KEY ((a <<< 2) ||| b) R = some (0, 8)) ∧
    (∀ sizeA sizeB R : Nat,
      codec_session 1 sizeA sizeB R R = (List.replicate (R + 1) (0, sizeB), 0)) ∧
    (∀ sizeA sizeB R : Nat,
      codec_session 3 sizeA sizeB R R = (List.replicate (R + 1) (sizeB, 0), 0)) ∧
    ((runDissector (disStateAfterRepeat 2) disLdTrace).repCount = 0 ∧
     (runDissector (disStateAfterRepeat 2) disLdTrace).opcode = IDLE) ∧
    dissectorReadySeq (disStateAfterRepeat 2) disLdTrace = [0x24, 0x1E, 0x98, 0x42] ∧
    ((runController ctrlInit ctrlRepTrace).repCount = 0 ∧
     (runController ctrlInit ctrlRepTrace).insnState = InsnState.CAPTURE_REPEAT ∧
     controllerCompletes ctrlInit ctrlRepTrace = true) ∧
    ((runController ctrlInit (ctrlRepTrace ++ ctrlLdTrace)).readCount = 0 ∧
     (runController ctrlInit (ctrlRepTrace ++ ctrlLdTrace)).pdiState =
       CtrlPdiState.RECV_DATA) := by
  refine ⟨?_, codec_session_ld, codec_session_st, by decide, by decide, by decide, by decide⟩
  intro a b ha hb R
  interval_cases a <;> interval_cases b <;>
    simp [decode_counts, pdi_handlers, handle_lds, handle_ld, handle_sts, handle_st,
      handle_ldcs, handle_stcs, handle_repeat, handle_key,
      LDS, LD, STS, ST, LDCS, STCS, REPEAT, KEY] <;>
    decide

/-- C1 witness: the software table at sizeA field 1, sizeB field 0, repeat
count 2 (the LD opcode of the traced scenario) and the observer session for
LD with sizeB 1, repeat 2. -/
theorem C1_decode_counts_witness :
    decode_counts LD ((1 <<< 2) ||| 0) 2 = some (3, 0) ∧
    codec_session 1 2 1 2 2 = ([(0, 1), (0, 1), (0, 1)], 0) :=
  ⟨(C1_decode_counts.1 1 0 (by decide) (by decide) 2).2.1,
   C1_decode_counts.2.1 2 1 2⟩

/-- C2: the two gateware codec variants and the software decoder.  The two
insn FSM decode tables are identical functions, as are the two
UPDATE-REPEAT computations (first two conjuncts); the gateware repeat
capture agrees with the software accumulate-then-reverse path for payload
sizes 1-3 at representative inputs; but for a size-4 payload the gateware
UPDATE-REPEAT computes 0x03020102 where the software computes 0x04030201
(the `repeatData[16:32]` slice typo), and in the driver variant the
CAPTURE-REPEAT state is dead because `updateRepeat` is never driven, so a
driven REPEAT leaves the repeat count register at 0 — the code-bug side of
this claim. -/
theorem C2_codec_variants :
    controller_insn_decode = dissector_insn_decode ∧
    controller_update_repeat = dissector_update_repeat ∧
    gateware_repeat_count 0 [0x07] = software_repeat_count [0x07] ∧
    gateware_repeat_count 1 [0x01, 0x00] = software_repeat_count [0x01, 0x00] ∧
    gateware_repeat_count 2 [0x01, 0x02, 0x03] = software_repeat_count [0x01, 0x02, 0x03] ∧
    gateware_repeat_count 3 [0x01, 0x02, 0x03, 0x04] = 0x03020102 ∧
    software_repeat_count [0x01, 0x02, 0x03, 0x04] = 0x04030201 ∧
    gateware_repeat_count 3 [0x01, 0x02, 0x03, 0x04] ≠
      software_repeat_count [0x01, 0x02, 0x03, 0x04] ∧
    ((runController ctrlInit ctrlRepTrace).repCount = 0 ∧
     (runController ctrlInit ctrlRepTrace).repeatData = 0) := by
  exact ⟨rfl, rfl, by decide, by decide, by decide, by decide, by decide, by decide,
    by decide⟩

/-- C6: the command protocol adapter's read path.  The command 0x80 (LDCS)
decodes to readCount 1, writeCount 0, and after the command byte is
shifted the controller moves to RECV-DATA; but RECV-DATA has no
transitions and no outputs, so the controller never shifts in a byte,
never signals completion, and stays there for every input — the read
request hangs instead of returning one byte and completing, contradicting
the claim (and the repository's own `sim-interactive.py` bench, lines
125-133). -/
theorem C6_read_path :
    (∀ (s : CtrlState) (i : CtrlInput), s.pdiState = CtrlPdiState.RECV_DATA →
      (controllerStep s i).1.pdiState = CtrlPdiState.RECV_DATA ∧
      (controllerStep s i).2 = false) ∧
    ((runController ctrlInit ctrlLdcsTrace).pdiState = CtrlPdiState.RECV_DATA ∧
     (runController ctrlInit ctrlLdcsTrace).readCount = 1 ∧
     (runController ctrlInit ctrlLdcsTrace).writeCount = 0 ∧
     controllerCompletes ctrlInit ctrlLdcsTrace = false) := by
  refine ⟨?_, by decide, by decide, by decide, by decide⟩
  intro s i hps
  constructor
  · simp [controllerStep, controllerInsnApply_pdiState, hps]
  · simp [controllerStep, hps]

/-- C6 witness: the stuck-state fact applied to the concrete state the
LDCS trace ends in. -/
theorem C6_read_path_witness :
    (controllerStep (runController ctrlInit ctrlLdcsTrace)
      ⟨0x80, true, false, 0, true, 0⟩).1.pdiState = CtrlPdiState.RECV_DATA :=
  (C6_read_path.1 (runController ctrlInit ctrlLdcsTrace)
    ⟨0x80, true, false, 0, true, 0⟩ (by decide)).1

/-- C7 counterexample: a `Reset` header byte (0x1E) arriving while a PDI
transaction is in flight (adapter in HANDLE-PDI, the controller asking for
write data) is consumed as transaction data: the adapter stays in
HANDLE-PDI, latches 0x1E into the controller's write-data register, never
raises `resetIssue` and writes no status byte.  The in-flight transaction
is not aborted, contradicting the claim. -/
theorem C7_reset_midflight_counterexample :
    (subtargetStep
      { fsm := SubState.HANDLE_PDI, header := headerPDI, resetIssue := false,
        idCodeIssue := false, pdiIssue := true, pdiCmd := 0x80, pdiDataOut := 0 }
      { r_rdy := true, r_data := headerReset, resetComplete := false,
        idCodeReady := false, pdiNeedData := true, pdiComplete := false,
        idCode := 0 }).1.fsm = SubState.HANDLE_PDI ∧
    (subtargetStep
      { fsm := SubState.HANDLE_PDI, header := headerPDI, resetIssue := false,
        idCodeIssue := false, pdiIssue := true, pdiCmd := 0x80, pdiDataOut := 0 }
      { r_rdy := true, r_data := headerReset, resetComplete := false,
        idCodeReady := false, pdiNeedData := true, pdiComplete := false,
        idCode := 0 }).1.resetIssue = false ∧
    (subtargetStep
      { fsm := SubState.HANDLE_PDI, header := headerPDI, resetIssue := false,
        idCodeIssue := false, pdiIssue := true, pdiCmd := 0x80, pdiDataOut := 0 }
      { r_rdy := true, r_data := headerReset, resetComplete := false,
        idCodeReady := false, pdiNeedData := true, pdiComplete := false,
        idCode := 0 }).1.pdiDataOut = headerReset ∧
    (subtargetStep
      { fsm := SubState.HANDLE_PDI, header := headerPDI, resetIssue := false,
        idCodeIssue := false, pdiIssue := true, pdiCmd := 0x80, pdiDataOut := 0 }
      { r_rdy := true, r_data := headerReset, resetComplete := false,
        idCodeReady := false, pdiNeedData := true, pdiComplete := false,
        idCode := 0 }).2.w_en = false := by
  exact ⟨rfl, rfl, rfl, rfl⟩

/-- C7 amended: a `Reset` header takes effect only when parsed as a header
between transactions: from DECODE-HEADER with header 0x1E the adapter
raises `resetIssue` and moves to WAIT-RESET, and when the TAP reports
`resetComplete` it replies with the single status byte 1, clears
`resetIssue` and returns to IDLE.  A 0x1E byte arriving while a PDI
transaction is in flight is consumed as transaction write data (the fact
shown in the counterexample); the PDI codec has no reset input, so its
state is not resynchronized by a Reset command. -/
theorem C7_reset_header :
    (subtargetStep
      { fsm := SubState.DECODE_HEADER, header := headerReset, resetIssue := false,
        idCodeIssue := false, pdiIssue := false, pdiCmd := 0, pdiDataOut := 0 }
      { r_rdy := false, r_data := 0, resetComplete := false, idCodeReady := false,
        pdiNeedData := false, pdiComplete := false, idCode := 0 }).1 =
      { fsm := SubState.WAIT_RESET, header := headerReset, resetIssue := true,
        idCodeIssue := false, pdiIssue := false, pdiCmd := 0, pdiDataOut := 0 } ∧
    (subtargetStep
      { fsm := SubState.WAIT_RESET, header := headerReset, resetIssue := true,
        idCodeIssue := false, pdiIssue := false, pdiCmd := 0, pdiDataOut := 0 }
      { r_rdy := false, r_data := 0, resetComplete := true, idCodeReady := false,
        pdiNeedData := false, pdiComplete := false, idCode := 0 }) =
      ({ fsm := SubState.SUBIDLE, header := headerReset, resetIssue := false,
         idCodeIssue := false, pdiIssue := false, pdiCmd := 0, pdiDataOut := 0 },
       { r_en := false, w_en := true, w_data := 1, pdiDataReady := false }) := by
  exact ⟨rfl, rfl⟩

/-- C8 counterexample: on exiting the RESET state, the driver TAP
(`interactive.py` line 123) latches the Instruction register with BYPASS
(0xF), not IDCODE (0x3) — refuting the claim that both role variants latch
IDCODE after a completed reset. -/
theorem C8_reset_insn_counterexample :
    (driverTapStep
      { fsm := DrvTapState.RESET, resetTimer := 0, insn := idCodeInsn, insnNext := 0,
        insnCounter := 0, dataIn := 0, dataOut := 0, dataCounter := 0, idCode := 0,
        pdiDataIn := 0 }
      { mayUpdate := true, resetIssue := true, idCodeIssue := false, pdiIssue := false,
        tdi := false, pdiDataOut := 0 }).1.insn = bypassInsn ∧
    (driverTapStep
      { fsm := DrvTapState.RESET, resetTimer := 0, insn := idCodeInsn, insnNext := 0,
        insnCounter := 0, dataIn := 0, dataOut := 0, dataCounter := 0, idCode := 0,
        pdiDataIn := 0 }
      { mayUpdate := true, resetIssue := true, idCodeIssue := false, pdiIssue := false,
        tdi := false, pdiDataOut := 0 }).2.resetComplete = true ∧
    bypassInsn ≠ idCodeInsn := by
  exact ⟨rfl, rfl, by decide⟩

/-- C8 amended: whenever the TAP passes through RESET and exits it, the
Observer role (`sniffer.py` line 57) latches Instruction = IDCODE (0x3),
while the Driver role (`interactive.py` line 123) latches
Instruction = BYPASS (0xF); the two roles differ. -/
theorem C8_reset_insn :
    (∀ (s : DrvTapRegs) (i : DrvTapInput),
      s.fsm = DrvTapState.RESET → i.mayUpdate = true → s.resetTimer = 0 →
      (driverTapStep s i).1.insn = bypassInsn ∧
      (driverTapStep s i).1.fsm = DrvTapState.DRVIDLE ∧
      (driverTapStep s i).2.resetComplete = true) ∧
    (∀ (s : ObsTapRegs) (i : ObsTapInput),
      s.fsm = TapState.RESET → i.tms = false →
      (observerTapStep s i).1.insn = idCodeInsn ∧
      (observerTapStep s i).1.fsm = TapState.TAPIDLE) := by
  constructor
  · rintro ⟨fsm, rt, insn, inx, ic, di, dd, dc, idc, pdi⟩ i hf hm ht
    subst hf; subst ht
    simp [driverTapStep, hm]
  · rintro ⟨fsm, sdr, sir, insn, inx, di, dd, idc, pin, pout⟩ i hf ht
    subst hf
    cases sdr <;> cases sir <;>
      simp [observerTapStep, ht, tapStep, beq_iff_eq]

/-- C8 witness: the amended reset-exit facts instantiated on concrete
register states for both roles. -/
theorem C8_reset_insn_witness :
    (driverTapStep
      { fsm := DrvTapState.RESET, resetTimer := 0, insn := 0, insnNext := 0,
        insnCounter := 0, dataIn := 0, dataOut := 0, dataCounter := 0, idCode := 0,
        pdiDataIn := 0 }
      { mayUpdate := true, resetIssue := false, idCodeIssue := false, pdiIssue := false,
        tdi := false, pdiDataOut := 0 }).1.insn = bypassInsn ∧
    (observerTapStep
      { fsm := TapState.RESET, shiftDR := false, shiftIR := false, insn := 0,
        insnNext := 0, dataIn := 0, dataOut := 0, idCode := 0, pdiDataIn := 0,
        pdiDataOut := 0 }
      { tms := false, tdi := false, tdo := false }).1.insn = idCodeInsn := by
  exact ⟨(C8_reset_insn.1 _ _ rfl rfl rfl).1, (C8_reset_insn.2 _ _ rfl rfl).1⟩

set_option maxRecDepth 100000 in
set_option maxHeartbeats 2000000 in
/-- C4: every PDI data byte is carried as a 9-bit unit whose 9th bit is the
XOR of the 8 data bits (encoding 0xC0 yields parity bit 0), a received unit
is valid iff the XOR of all 9 bits is 0 (so every encoded unit is valid and
flipping any single bit of it is detected), and on a parity mismatch the
dissector moves to PARITY-ERROR, asserts its error output, sets its opcode
register back to IDLE and returns to its byte IDLE state, with no retry
path. -/
theorem C4_parity :
    (∀ b : Nat, b < 256 →
      slice (encodePdi b) 0 8 = b ∧
      (encodePdi b).testBit 8 = xorBits b 8 ∧
      parityValid (encodePdi b) = true) ∧
    encodePdi 0xC0 = 0xC0 ∧
    (∀ b : Nat, b < 256 → ∀ k : Nat, k < 9 →
      parityValid (encodePdi b ^^^ (1 <<< k)) = false) ∧
    (∀ (s : DisState) (i : DisInput), s.pdiState = DisPdiState.CHECK_PARITY →
      (s.opcode = IDLE ∨ s.writeCount ≠ 0) → parityValid i.pdiDataIn = false →
      (dissectorStep s i).1.pdiState = DisPdiState.PARITY_ERROR) ∧
    (∀ (s : DisState) (i : DisInput), s.pdiState = DisPdiState.CHECK_PARITY →
      s.opcode ≠ IDLE → s.writeCount = 0 → parityValid i.pdiDataOut = false →
      (dissectorStep s i).1.pdiState = DisPdiState.PARITY_ERROR) ∧
    (∀ (s : DisState) (i : DisInput), s.pdiState = DisPdiState.PARITY_ERROR →
      (dissectorStep s i).2.error = true ∧
      (dissectorStep s i).1.opcode = IDLE ∧
      (dissectorStep s i).1.pdiState = DisPdiState.DISIDLE) := by
  refine ⟨by decide, by decide, by decide, ?_, ?_, ?_⟩
  · intro s i hps hd hp
    rcases hd with h | h
    · simp [dissectorStep, dissectorInsnApply_pdiState, hps, hp, h]
    · simp [dissectorStep, dissectorInsnApply_pdiState, hps, hp, h]
  · intro s i hps ho hw hp
    simp [dissectorStep, dissectorInsnApply_pdiState, hps, hp, ho, hw]
  · intro s i hps
    refine ⟨?_, ?_, ?_⟩
    · simp [dissectorStep, hps]
    · simp [dissectorStep, dissectorInsnApply_opcode, hps]
    · simp [dissectorStep, dissectorInsnApply_pdiState, hps]

/-- C4 witness: the parity facts instantiated at the byte 0xC0, a flipped
bit 3, and a concrete dissector state receiving a corrupted unit. -/
theorem C4_parity_witness :
    parityValid (encodePdi 0xC0) = true ∧
    parityValid (encodePdi 0xC0 ^^^ (1 <<< 3)) = false ∧
    (dissectorStep { disStateAfterRepeat 0 with pdiState := DisPdiState.PARITY_ERROR }
      { pdiStrobe := false, pdiDataIn := 0, pdiDataOut := 0 }).1.pdiState =
      DisPdiState.DISIDLE :=
  ⟨(C4_parity.1 0xC0 (by decide)).2.2,
   C4_parity.2.2.1 0xC0 (by decide) 3 (by decide),
   (C4_parity.2.2.2.2.2
     { disStateAfterRepeat 0 with pdiState := DisPdiState.PARITY_ERROR }
     { pdiStrobe := false, pdiDataIn := 0, pdiDataOut := 0 } rfl).2.2⟩

end JTAGPDI
